import Mathlib

/-!
Shallow embedding of the openrouter-python-companion repository
(src/openrouter_companion: types.py, enums.py, filters.py, utils.py,
prompt/base.py, prompt/string_template.py, prompt/template_loader.py),
together with theorems settling the spec claims about it.

Conventions of the embedding:
- Python float prices are modelled exactly: a parsed price is a decimal
  (integer mantissa and power-of-ten exponent, the type Dec), the float inf
  fallback of get_pricing_per_1m_tokens is the none of Option Dec, and the
  function priceValue interprets such a price in WithTop Rat, where order
  properties are stated and proved.
- Python exceptions become an explicit error type PyErr; a Python function
  that can raise returns Except PyErr.
- Python attribute lookup with getattr(x, name, None) on optional fields is
  modelled with Option fields on the record (none = attribute absent or None,
  the two being observationally identical in every use in this code base).
-/

/-- Model of a raised Python exception, by exception class and message.
keyError carries the missing key (Python KeyError(key)); the source at
string_template.py line 36 recovers the key from str(e) by stripping the
quotes that str adds around it, which is modelled by carrying the bare key. -/
inductive PyErr where
  | runtimeError (msg : String)
  | typeError (msg : String)
  | valueError (msg : String)
  | attributeError (msg : String)
  | keyError (key : String)
  | fileNotFoundError (msg : String)
  | ioError (msg : String)
deriving DecidableEq, Repr

/-- The Python class name of a modelled exception (type(e).__name__). -/
def PyErr.typeName : PyErr → String
  | .runtimeError _ => "RuntimeError"
  | .typeError _ => "TypeError"
  | .valueError _ => "ValueError"
  | .attributeError _ => "AttributeError"
  | .keyError _ => "KeyError"
  | .fileNotFoundError _ => "FileNotFoundError"
  | .ioError _ => "IOError"

/-- A raw attribute value that the pricing fields of a catalog entry may hold:
a string, or None. (The OpenRouter API supplies prices as decimal strings;
None is the other value observed, and hits the TypeError branch of float().) -/
inductive PyVal where
  | str (s : String)
  | pynone
deriving DecidableEq, Repr

/-- Digits of a numeral folded into a natural number. -/
def digitsToNat (ds : List Char) : Nat :=
  ds.foldl (fun n c => 10 * n + (c.toNat - 48)) 0

/-- An exact decimal value, the float value m * 10 ^ e.  Python floats are
binary approximations of these values; every comparison and multiplication
the source performs on prices is modelled exactly on this representation. -/
structure Dec where
  m : Int
  e : Int
deriving DecidableEq, Repr

/-- Powers of ten as integers, by structural recursion so that concrete
instances reduce inside the kernel. -/
def pow10 : Nat → Int
  | 0 => 1
  | k + 1 => 10 * pow10 k

/-- The rational value of a decimal. -/
def Dec.toRat (d : Dec) : Rat :=
  (d.m : Rat) * (10 : Rat) ^ d.e

/-- Comparison of two decimals by value, by scaling both mantissas to the
smaller exponent (pure integer arithmetic, so it evaluates by decide). -/
def Dec.le (a b : Dec) : Bool :=
  if a.e ≤ b.e then decide (a.m ≤ b.m * pow10 (b.e - a.e).toNat)
  else decide (a.m * pow10 (a.e - b.e).toNat ≤ b.m)

/-- Multiplication of a decimal by 1,000,000, exact in this representation. -/
def Dec.mulMillion (d : Dec) : Dec :=
  { m := d.m, e := d.e + 6 }

/-- Exponent part of a decimal numeral: empty input means exponent 0; an
e or E followed by an optional sign and at least one digit, consuming the
whole rest of the input, gives that exponent; anything else fails. -/
def parseExponent (cs : List Char) : Option Int :=
  match cs with
  | [] => some 0
  | e :: rest =>
    if e = 'e' ∨ e = 'E' then
      let (sgn, digs) : Bool × List Char :=
        match rest with
        | '+' :: r => (false, r)
        | '-' :: r => (true, r)
        | r => (false, r)
      if digs ≠ [] ∧ digs.all Char.isDigit then
        some (if sgn then -(digitsToNat digs : Int) else (digitsToNat digs : Int))
      else none
    else none

/-- Model of Python float(s) restricted to decimal numerals: an optional
sign, then digits with an optional decimal point (at least one digit in
total), then an optional exponent.  A string that is not such a numeral is
treated as unparsable (the ValueError branch of the source); special float
spellings that are not decimal numerals are outside the model.  The result
is the exact decimal value. -/
def parseDecimal (s : String) : Option Dec :=
  let (neg, body) : Bool × List Char :=
    match s.data with
    | '+' :: r => (false, r)
    | '-' :: r => (true, r)
    | r => (false, r)
  let ip := body.takeWhile Char.isDigit
  let rest1 := body.dropWhile Char.isDigit
  let core : Option (Nat × Int × List Char) :=
    match rest1 with
    | '.' :: r2 =>
      let fp := r2.takeWhile Char.isDigit
      let rest2 := r2.dropWhile Char.isDigit
      if ip = [] ∧ fp = [] then none
      else some (digitsToNat (ip ++ fp), -(fp.length : Int), rest2)
    | _ =>
      if ip = [] then none else some (digitsToNat ip, 0, rest1)
  match core with
  | none => none
  | some (m, fscale, rest) =>
    match parseExponent rest with
    | none => none
    | some e => some { m := if neg then -(m : Int) else (m : Int), e := fscale + e }

/-- float(v) applied to a raw attribute value: strings go through the
decimal parser, None is the TypeError branch; none models the exception
that the source catches and converts into the infinity fallback. -/
def pyFloat : PyVal → Option Dec
  | .str s => parseDecimal s
  | .pynone => none

/-- The pricing structure of a raw catalog entry.  prompt and image are the
attributes read by the source; none models an absent attribute (hasattr
false) or a None value, which behave identically in the source. -/
structure Pricing where
  prompt : Option PyVal := none
  image : Option PyVal := none
deriving DecidableEq, Repr

/-- The architecture structure of a raw catalog entry; input_modalities is
the attribute read by supports_images. -/
structure Architecture where
  input_modalities : Option (List String) := none
deriving DecidableEq, Repr

/-- A raw catalog entry as returned by the external client (spec section 3).
canonical_slug_mismatch models the opaque has_canonical_slug_mismatch()
predicate that ModelInfo delegates to the wrapped record. -/
structure RawModel where
  id : String
  name : Option String := none
  description : Option String := none
  pricing : Option Pricing := none
  architecture : Option Architecture := none
  supported_parameters : Option (List String) := none
  context_length : Option Int := none
  canonical_slug_mismatch : Bool := false
deriving DecidableEq, Repr

/-- ModelInfo (types.py): wrapper around one raw catalog entry, adding no
state of its own. -/
structure ModelInfo where
  raw : RawModel
deriving DecidableEq, Repr

def ModelInfo.id (m : ModelInfo) : String := m.raw.id

def ModelInfo.name (m : ModelInfo) : Option String := m.raw.name

def ModelInfo.description (m : ModelInfo) : Option String := m.raw.description

def ModelInfo.pricing (m : ModelInfo) : Option Pricing := m.raw.pricing

def ModelInfo.architecture (m : ModelInfo) : Option Architecture := m.raw.architecture

def ModelInfo.supported_parameters (m : ModelInfo) : Option (List String) :=
  m.raw.supported_parameters

def ModelInfo.context_length (m : ModelInfo) : Option Int := m.raw.context_length

/-- has_canonical_slug_mismatch(), delegated through __getattr__ to the
wrapped record; opaque to this system. -/
def ModelInfo.has_canonical_slug_mismatch (m : ModelInfo) : Bool :=
  m.raw.canonical_slug_mismatch

/-- get_pricing_per_1m_tokens (types.py lines 60-73): prompt price parsed
with float() and multiplied by 1,000,000; the float inf fallback, modelled
as none, when the pricing structure is absent, has no prompt attribute, or
float() raises. -/
def ModelInfo.get_pricing_per_1m_tokens (m : ModelInfo) : Option Dec :=
  match m.pricing with
  | none => none
  | some p =>
    match p.prompt with
    | none => none
    | some v =>
      match pyFloat v with
      | none => none
      | some d => some d.mulMillion

/-- The extended-real value of a price: the rational value of the decimal,
or top for the float inf fallback. -/
def priceValue : Option Dec → WithTop Rat
  | none => ⊤
  | some d => (d.toRat : WithTop Rat)

/-- get_image_pricing (types.py lines 75-89): the per-image price when
present, parsable and strictly positive, else none. -/
def ModelInfo.get_image_pricing (m : ModelInfo) : Option Dec :=
  match m.pricing with
  | none => none
  | some p =>
    match p.image with
    | none => none
    | some v =>
      match pyFloat v with
      | none => none
      | some d => if 0 < d.m then some d else none

/-- is_free (types.py line 91-93): the price per 1M tokens equals 0 (a
decimal is zero exactly when its mantissa is; the inf fallback is not 0). -/
def ModelInfo.is_free (m : ModelInfo) : Bool :=
  match m.get_pricing_per_1m_tokens with
  | some d => d.m = 0
  | none => false

/-- has_pricing (types.py line 95-97): the price per 1M tokens is finite. -/
def ModelInfo.has_pricing (m : ModelInfo) : Bool :=
  m.get_pricing_per_1m_tokens.isSome

/-- supports_images (types.py lines 99-104): the architecture exposes a
non-empty input_modalities collection containing the string image. -/
def ModelInfo.supports_images (m : ModelInfo) : Bool :=
  match m.architecture with
  | none => false
  | some a =>
    match a.input_modalities with
    | none => false
    | some ms => !ms.isEmpty && ms.contains "image"

/-- supports_structured_output (types.py lines 106-111). -/
def ModelInfo.supports_structured_output (m : ModelInfo) : Bool :=
  match m.supported_parameters with
  | none => false
  | some ps =>
    !ps.isEmpty && (ps.contains "response_format" || ps.contains "structured_outputs")

/-- get_sort_name (types.py lines 113-115): name or id, with a None or
empty name falling through to the id (Python truthiness of the string). -/
def ModelInfo.get_sort_name (m : ModelInfo) : String :=
  match m.name with
  | some s => if s = "" then m.id else s
  | none => m.id

/-- get_context_length_sort (types.py lines 117-119): context_length or 0
(a missing value, and likewise a 0 value, gives 0). -/
def ModelInfo.get_context_length_sort (m : ModelInfo) : Int :=
  match m.context_length with
  | some n => n
  | none => 0

/-- _default_deprecation_keywords (types.py lines 122-128). -/
def default_deprecation_keywords : List String :=
  ["deprecated", "removed", "discontinued", "being deprecated"]

/-- FilterConfig (types.py lines 131-135): the dataclass as declared, with
fields include_deprecated and deprecation_keywords only. -/
structure FilterConfig where
  include_deprecated : Bool := false
  deprecation_keywords : List String := default_deprecation_keywords
deriving DecidableEq, Repr

/-- The field names of the FilterConfig dataclass, which are exactly the
keyword arguments its generated __init__ accepts. -/
def FilterConfig.fieldNames : List String :=
  ["include_deprecated", "deprecation_keywords"]

/-- ModelCapability (enums.py lines 8-16): the capability bit-set as
declared in the source.  The declared members are NONE, IMAGE_INPUT and
STRUCTURED_OUTPUT (plus the aliases MULTIMODAL and ALL); no REASONING
member is declared, which is why reading ModelCapability.REASONING in
filters.py raises AttributeError. -/
structure ModelCapability where
  image_input : Bool
  structured_output : Bool
deriving DecidableEq, Repr

def ModelCapability.NONE : ModelCapability := { image_input := false, structured_output := false }

def ModelCapability.IMAGE_INPUT : ModelCapability := { image_input := true, structured_output := false }

def ModelCapability.STRUCTURED_OUTPUT : ModelCapability := { image_input := false, structured_output := true }

/-- Bitwise OR of capability flags. -/
def ModelCapability.union (a b : ModelCapability) : ModelCapability :=
  { image_input := a.image_input || b.image_input,
    structured_output := a.structured_output || b.structured_output }

def ModelCapability.MULTIMODAL : ModelCapability := ModelCapability.IMAGE_INPUT

def ModelCapability.ALL : ModelCapability :=
  ModelCapability.union ModelCapability.IMAGE_INPUT ModelCapability.STRUCTURED_OUTPUT

/-- SortOrder (enums.py lines 19-27). -/
inductive SortOrder where
  | NONE
  | PRICE_ASC
  | PRICE_DESC
  | NAME_ASC
  | NAME_DESC
  | CONTEXT_ASC
  | CONTEXT_DESC
deriving DecidableEq, Repr

/-- Substring containment on character lists (the Python in operator on
strings), kept structural so it evaluates in the kernel. -/
def listContainsSub (hay needle : List Char) : Bool :=
  (List.range (hay.length + 1)).any (fun i => needle.isPrefixOf (hay.drop i))

/-- _is_deprecated (filters.py lines 30-45): a falsy description (absent or
empty) is never deprecated; otherwise some configured keyword occurs in the
lowercased description. -/
def ModelFilter.is_deprecated (model : ModelInfo) (config : FilterConfig) : Bool :=
  match model.description with
  | none => false
  | some d =>
    if d = "" then false
    else config.deprecation_keywords.any (fun k => listContainsSub d.toLower.data k.data)

/-- _is_problematic_variant (filters.py lines 47-58). -/
def ModelFilter.is_problematic_variant (model : ModelInfo) (_config : FilterConfig) : Bool :=
  model.has_canonical_slug_mismatch

/-- An exception raised by the external client inside
client.models.list(details=details), by Python class name and message. -/
structure ClientExc where
  typeName : String
  msg : String
deriving DecidableEq, Repr

/-- _fetch_models (filters.py lines 60-77): the single client call, modelled
by its outcome; any exception from the client is caught and re-raised as a
RuntimeError carrying the formatted message, and a successful response is
wrapped entry by entry in ModelInfo. -/
def ModelFilter.fetch_models (response : Except ClientExc (List RawModel)) :
    Except PyErr (List ModelInfo) :=
  match response with
  | .error e => .error (.runtimeError ("Failed to fetch models from OpenRouter API: " ++ e.msg))
  | .ok data => .ok (data.map ModelInfo.mk)

/-- The price order on models used by sorted(models, key=get_pricing_per_1m_tokens):
the inf fallback (none) is greater than every finite price. -/
def priceLeB : Option Dec → Option Dec → Bool
  | _, none => true
  | none, some _ => false
  | some a, some b => Dec.le a b

def priceLe (a b : ModelInfo) : Prop :=
  priceLeB a.get_pricing_per_1m_tokens b.get_pricing_per_1m_tokens = true

def priceGe (a b : ModelInfo) : Prop :=
  priceLeB b.get_pricing_per_1m_tokens a.get_pricing_per_1m_tokens = true

def nameLe (a b : ModelInfo) : Prop := a.get_sort_name ≤ b.get_sort_name

def nameGe (a b : ModelInfo) : Prop := b.get_sort_name ≤ a.get_sort_name

def contextLe (a b : ModelInfo) : Prop := a.get_context_length_sort ≤ b.get_context_length_sort

def contextGe (a b : ModelInfo) : Prop := b.get_context_length_sort ≤ a.get_context_length_sort

instance : DecidableRel priceLe := fun _ _ => instDecidableEqBool _ _

instance : DecidableRel priceGe := fun _ _ => instDecidableEqBool _ _

instance : DecidableRel nameLe := fun _ _ => String.decidableLE _ _

instance : DecidableRel nameGe := fun _ _ => String.decidableLE _ _

instance : DecidableRel contextLe := fun _ _ => Int.decLe _ _

instance : DecidableRel contextGe := fun _ _ => Int.decLe _ _

/-- _apply_sort (filters.py lines 79-102): a stable comparison sort of a
fresh list by the key of the chosen order (Python sorted is a stable sort,
and sorted with reverse=True is the stable sort by the flipped comparison);
SortOrder.NONE returns the fresh copy list(models). -/
def ModelFilter.apply_sort (models : List ModelInfo) (sort_order : SortOrder) : List ModelInfo :=
  match sort_order with
  | .PRICE_ASC => List.insertionSort priceLe models
  | .PRICE_DESC => List.insertionSort priceGe models
  | .NAME_ASC => List.insertionSort nameLe models
  | .NAME_DESC => List.insertionSort nameGe models
  | .CONTEXT_ASC => List.insertionSort contextLe models
  | .CONTEXT_DESC => List.insertionSort contextGe models
  | .NONE => models

/-- The keyword-argument names used at the FilterConfig(...) call in
filter_models (filters.py lines 134-137). -/
def filterConfigCallKwargs : List String :=
  ["include_deprecated", "include_problematic_variants"]

/-- The first keyword argument of the FilterConfig(...) call that the
dataclass-generated __init__ does not accept, if any. -/
def unexpectedKwarg : Option String :=
  filterConfigCallKwargs.find? (fun k => !(FilterConfig.fieldNames.contains k))

/-- The FilterConfig(include_deprecated=..., include_problematic_variants=...)
construction at filters.py lines 134-137: a dataclass __init__ raises
TypeError on a keyword argument that is not one of its fields (the message
is modelled without the quotes Python puts around the argument name). -/
def mkFilterConfig (include_deprecated : Bool) : Except PyErr FilterConfig :=
  match unexpectedKwarg with
  | some k =>
    .error (.typeError ("FilterConfig.__init__() got an unexpected keyword argument " ++ k))
  | none =>
    .ok { include_deprecated := include_deprecated,
          deprecation_keywords := default_deprecation_keywords }

/-- One iteration of the filtering loop at filters.py lines 141-163 applied
to one model: ok true keeps the model, ok false is a continue, and an error
is an exception escaping the loop.  The image and structured-output checks
are lines 143-149; a model that neither check skips then reaches line 151,
where reading ModelCapability.REASONING raises AttributeError (enums.py
declares no such member), so the deprecation check (line 156), the variant
check (line 160) and the append (line 163) are unreachable. -/
def filterLoopStep (capabilities : ModelCapability) (m : ModelInfo) : Except PyErr Bool :=
  if capabilities.image_input && !m.supports_images then .ok false
  else if capabilities.structured_output && !m.supports_structured_output then .ok false
  else .error (.attributeError "REASONING")

/-- The filtering loop at filters.py lines 140-163 over the whole fetched
list, accumulating the kept models in order. -/
def runFilterLoop (capabilities : ModelCapability) : List ModelInfo → Except PyErr (List ModelInfo)
  | [] => .ok []
  | m :: ms =>
    match filterLoopStep capabilities m with
    | .error e => .error e
    | .ok true =>
      match runFilterLoop capabilities ms with
      | .error e => .error e
      | .ok rest => .ok (m :: rest)
    | .ok false => runFilterLoop capabilities ms

/-- filter_models (filters.py lines 104-165): build the FilterConfig, fetch
the catalog, run the filtering loop, sort the survivors.  The client call
outcome is passed in as response.  Note the FilterConfig construction at
line 134 precedes the fetch at line 138 and raises TypeError, since the
dataclass has no include_problematic_variants field. -/
def ModelFilter.filter_models (response : Except ClientExc (List RawModel))
    (capabilities : ModelCapability) (include_deprecated : Bool)
    (_include_problematic_variants : Bool) (sort_order : SortOrder) :
    Except PyErr (List ModelInfo) :=
  match mkFilterConfig include_deprecated with
  | .error e => .error e
  | .ok _config =>
    match ModelFilter.fetch_models response with
    | .error e => .error e
    | .ok models =>
      match runFilterLoop capabilities models with
      | .error e => .error e
      | .ok filtered => .ok (ModelFilter.apply_sort filtered sort_order)

/-- Opening brace character (written by code point to keep it out of
string literals). -/
def lbrace : Char := Char.ofNat 123

/-- Closing brace character. -/
def rbrace : Char := Char.ofNat 125

/-- First character of an identifier in the default Template pattern. -/
def isIdStart (c : Char) : Bool := c.isAlpha || c = '_'

/-- Later character of an identifier in the default Template pattern. -/
def isIdChar (c : Char) : Bool := c.isAlphanum || c = '_'

/-- One lexical element of a string.Template: a literal character, a named
placeholder (bare or braced), an escaped double delimiter, or an invalid
lone delimiter (which carries the character position of its dollar sign,
used by the ValueError message). -/
inductive Tok where
  | lit (c : Char)
  | var (name : String)
  | braced (name : String)
  | escaped
  | invalid (dollarPos : Nat)
deriving DecidableEq, Repr

/-- Scanner for the default string.Template pattern over a character list,
mirroring how re.sub walks the template left to right: a dollar sign starts
an escaped dollar, a bare identifier, a braced identifier, or an invalid
match consuming just the dollar.  p is the character position of the head;
fuel bounds recursion and never runs out when it starts at the length. -/
def scanAux : Nat → Nat → List Char → List Tok
  | 0, _, _ => []
  | fuel + 1, p, cs =>
    match cs with
    | [] => []
    | '$' :: rest =>
      match rest with
      | [] => [.invalid p]
      | '$' :: r2 => .escaped :: scanAux fuel (p + 2) r2
      | c :: r2 =>
        if c = lbrace then
          let idp := r2.takeWhile isIdChar
          let r3 := r2.dropWhile isIdChar
          match r3 with
          | d :: r4 =>
            if d = rbrace ∧ idp ≠ [] ∧ isIdStart (idp.headD ' ') then
              .braced (String.mk idp) :: scanAux fuel (p + 3 + idp.length) r4
            else .invalid p :: scanAux fuel (p + 1) rest
          | [] => .invalid p :: scanAux fuel (p + 1) rest
        else if isIdStart c then
          let idtail := r2.takeWhile isIdChar
          let r3 := r2.dropWhile isIdChar
          .var (String.mk (c :: idtail)) :: scanAux fuel (p + 2 + idtail.length) r3
        else .invalid p :: scanAux fuel (p + 1) rest
    | c :: rest => .lit c :: scanAux fuel (p + 1) rest

/-- The lexical elements of a template string. -/
def scanTemplate (s : String) : List Tok :=
  scanAux s.length 0 s.data

/-- The message of the ValueError that Template._invalid raises, computed
from the template and the position of the offending dollar sign exactly as
CPython does (the match position of the empty invalid group is one past
the dollar sign). -/
def invalidMsg (s : String) (dollarPos : Nat) : String :=
  let i := dollarPos + 1
  let pre := s.data.take i
  let lineno := pre.count '\n' + 1
  let colno := (pre.reverse.takeWhile (fun c => c ≠ '\n')).length
  "Invalid placeholder in string: line " ++ toString lineno ++ ", col " ++ toString colno

/-- Template.substitute (the strict mode): replaces placeholders left to
right, raising KeyError at the first name missing from the mapping and
ValueError at the first invalid lone delimiter. -/
def substituteToks (s : String) (mapping : List (String × String)) :
    List Tok → Except PyErr String
  | [] => .ok ""
  | .lit c :: ts =>
    match substituteToks s mapping ts with
    | .error e => .error e
    | .ok r => .ok (String.singleton c ++ r)
  | .escaped :: ts =>
    match substituteToks s mapping ts with
    | .error e => .error e
    | .ok r => .ok ("$" ++ r)
  | .var n :: ts =>
    match mapping.lookup n with
    | none => .error (.keyError n)
    | some v =>
      match substituteToks s mapping ts with
      | .error e => .error e
      | .ok r => .ok (v ++ r)
  | .braced n :: ts =>
    match mapping.lookup n with
    | none => .error (.keyError n)
    | some v =>
      match substituteToks s mapping ts with
      | .error e => .error e
      | .ok r => .ok (v ++ r)
  | .invalid p :: _ => .error (.valueError (invalidMsg s p))

/-- Template.safe_substitute: like substitute but a missing name leaves the
placeholder verbatim and an invalid delimiter is left as the bare dollar;
it never raises. -/
def safeSubstituteToks (mapping : List (String × String)) : List Tok → String
  | [] => ""
  | .lit c :: ts => String.singleton c ++ safeSubstituteToks mapping ts
  | .escaped :: ts => "$" ++ safeSubstituteToks mapping ts
  | .var n :: ts =>
    (match mapping.lookup n with
     | some v => v
     | none => "$" ++ n) ++ safeSubstituteToks mapping ts
  | .braced n :: ts =>
    (match mapping.lookup n with
     | some v => v
     | none => "$" ++ String.singleton lbrace ++ n ++ String.singleton rbrace) ++
    safeSubstituteToks mapping ts
  | .invalid _ :: ts => "$" ++ safeSubstituteToks mapping ts

/-- The suffix logic shared by Prompt.render (base.py lines 33-41) and
StringTemplatePrompt.safe_render (string_template.py lines 48-54): a
non-empty suffix is appended after a blank line. -/
def appendSuffix (main suffix : String) : String :=
  if suffix = "" then main else main ++ "\n\n" ++ suffix

/-- StringTemplatePrompt (string_template.py): the template string plus the
overridable get_prompt_suffix hook of the base class, whose base
implementation returns the empty string. -/
structure StringTemplatePrompt where
  template_string : String
  prompt_suffix : String := ""
deriving DecidableEq, Repr

/-- get_prompt_suffix (base.py lines 60-69, overridable hook). -/
def StringTemplatePrompt.get_prompt_suffix (t : StringTemplatePrompt) : String :=
  t.prompt_suffix

/-- _render_content (string_template.py lines 21-37): strict substitution,
with a KeyError converted to a ValueError naming the missing variable (the
key recovered from str(e) by stripping its quotes). -/
def StringTemplatePrompt.render_content (t : StringTemplatePrompt)
    (mapping : List (String × String)) : Except PyErr String :=
  match substituteToks t.template_string mapping (scanTemplate t.template_string) with
  | .ok r => .ok r
  | .error (.keyError n) =>
    .error (.valueError ("Missing required template variable: " ++ n))
  | .error e => .error e

/-- Prompt.render (base.py lines 18-41) specialised to the string template:
the rendered content with the suffix appended when non-empty. -/
def StringTemplatePrompt.render (t : StringTemplatePrompt)
    (mapping : List (String × String)) : Except PyErr String :=
  match t.render_content mapping with
  | .error e => .error e
  | .ok main => .ok (appendSuffix main t.get_prompt_suffix)

/-- safe_render (string_template.py lines 39-54): safe substitution, then
the same suffix logic; total, it never raises. -/
def StringTemplatePrompt.safe_render (t : StringTemplatePrompt)
    (mapping : List (String × String)) : String :=
  appendSuffix (safeSubstituteToks mapping (scanTemplate t.template_string)) t.get_prompt_suffix

/-- What a filesystem path refers to when the template loader touches it:
nothing, a readable file with contents, a file whose read raises an OSError
with some message, or a directory (opening one raises IsADirectoryError,
an OSError, with some message). -/
inductive PathState where
  | absent
  | fileContent (content : String)
  | fileUnreadable (errMsg : String)
  | directory (errMsg : String)
deriving DecidableEq, Repr

/-- FileTemplatePrompt (template_loader.py): the template path (reassignable
via set_template_path, hence just data) and the suffix hook. -/
structure FileTemplatePrompt where
  template_path : String
  prompt_suffix : String := ""
deriving DecidableEq, Repr

def FileTemplatePrompt.get_prompt_suffix (t : FileTemplatePrompt) : String :=
  t.prompt_suffix

/-- validate_params (template_loader.py lines 41-48): ValueError when the
path does not exist, ValueError when it is not a regular file. -/
def FileTemplatePrompt.validate_params (fs : String → PathState) (t : FileTemplatePrompt) :
    Except PyErr Unit :=
  match fs t.template_path with
  | .absent => .error (.valueError ("Template file not found: " ++ t.template_path))
  | .directory _ => .error (.valueError ("Template path is not a file: " ++ t.template_path))
  | _ => .ok ()

/-- _render_content (template_loader.py lines 20-39): open and read the
file; FileNotFoundError is re-raised with the formatted message, and an
IOError during open or read is re-raised with the read-failure message. -/
def FileTemplatePrompt.render_content (fs : String → PathState) (t : FileTemplatePrompt) :
    Except PyErr String :=
  match fs t.template_path with
  | .absent => .error (.fileNotFoundError ("Template file not found: " ++ t.template_path))
  | .fileContent c => .ok c
  | .fileUnreadable m =>
    .error (.ioError ("Could not read template file " ++ t.template_path ++ ": " ++ m))
  | .directory m =>
    .error (.ioError ("Could not read template file " ++ t.template_path ++ ": " ++ m))

/-- Prompt.render (base.py lines 18-41) specialised to the file template. -/
def FileTemplatePrompt.render (fs : String → PathState) (t : FileTemplatePrompt) :
    Except PyErr String :=
  match t.render_content fs with
  | .error e => .error e
  | .ok main => .ok (appendSuffix main t.get_prompt_suffix)

deriving instance DecidableEq for Except

/-- The message of the TypeError that every filter_models call raises at
the FilterConfig construction (modelled without the quotes Python puts
around the argument name). -/
def filterConfigTypeErrorMsg : String :=
  "FilterConfig.__init__() got an unexpected keyword argument include_problematic_variants"

/-- Substring containment on strings (the Python in operator). -/
def strContains (hay needle : String) : Bool :=
  listContainsSub hay.data needle.data

/-- The skip condition of filters.py line 156: not include_deprecated and
self._is_deprecated(model, config). -/
def deprecationSkip (include_deprecated : Bool) (model : ModelInfo) (config : FilterConfig) : Bool :=
  !include_deprecated && ModelFilter.is_deprecated model config

/-- The placeholder name of a token, when it has one. -/
def Tok.nameOf : Tok → Option String
  | .var n => some n
  | .braced n => some n
  | _ => none

/-- Whether a token is an invalid lone delimiter. -/
def Tok.isInvalidTok : Tok → Bool
  | .invalid _ => true
  | _ => false

/-- The leftmost placeholder name of the token list that the mapping does
not supply, if any: the variable whose KeyError strict substitution hits
first. -/
def firstMissingVar (mapping : List (String × String)) : List Tok → Option String
  | [] => none
  | t :: ts =>
    match t.nameOf with
    | some n => if (mapping.lookup n).isSome then firstMissingVar mapping ts else some n
    | none => firstMissingVar mapping ts

/-- Catalog entry a of the structured-output scenario: prompt price
0.000002, supported parameter response_format. -/
def modelA : RawModel :=
  { id := "a",
    pricing := some { prompt := some (.str "0.000002") },
    supported_parameters := some ["response_format"] }

/-- Catalog entry b of the structured-output scenario: prompt price 0, no
supported parameters. -/
def modelB : RawModel :=
  { id := "b",
    pricing := some { prompt := some (.str "0") },
    supported_parameters := some [] }

/-- Catalog entry c of the structured-output scenario: no pricing,
supported parameter structured_outputs. -/
def modelC : RawModel :=
  { id := "c", supported_parameters := some ["structured_outputs"] }

/-- A catalog entry with no optional data at all. -/
def modelPlain : RawModel := { id := "m" }

/-- C1: on the catalog [a, b, c] of the scenario, filter_models with the
structured-output flag, include_deprecated false and price-asc does not
return [a, c] as claimed: it raises TypeError at the FilterConfig
construction (types.py declares no include_problematic_variants field),
before the catalog is fetched or filtered. -/
theorem C1_scenario_raises_typeerror :
    ModelFilter.filter_models (.ok [modelA, modelB, modelC])
        ModelCapability.STRUCTURED_OUTPUT false true SortOrder.PRICE_ASC =
      .error (.typeError filterConfigTypeErrorMsg) ∧
    ModelFilter.filter_models (.ok [modelA, modelB, modelC])
        ModelCapability.STRUCTURED_OUTPUT false true SortOrder.PRICE_ASC ≠
      .ok [ModelInfo.mk modelA, ModelInfo.mk modelC] :=
  ⟨rfl, by decide⟩

/-- C2: requested capability bits cannot be enforced with AND semantics by
the code as written: every filter_models call raises TypeError at the
FilterConfig construction; and even the loop of lines 140-163 taken on its
own raises AttributeError at line 151 for any entry that passes the image
and structured-output checks, because enums.py declares no REASONING
member — while an entry skipped by an earlier check avoids that line, so a
catalog whose entries all fail a requested capability filters to []. -/
theorem C2_and_semantics_unreachable :
    ModelFilter.filter_models (.ok [modelPlain])
        ModelCapability.NONE false true SortOrder.NONE =
      .error (.typeError filterConfigTypeErrorMsg) ∧
    runFilterLoop ModelCapability.NONE [ModelInfo.mk modelPlain] =
      .error (.attributeError "REASONING") ∧
    runFilterLoop ModelCapability.ALL [ModelInfo.mk modelPlain] = .ok [] :=
  ⟨rfl, rfl, rfl⟩

/-- C8: no call to filter_models returns a list at all — every call raises
TypeError at the FilterConfig construction, for every response, flag
combination and sort order; the sort step itself is non-mutating: it
returns a list that is a permutation of its input, leaving the input list
(a pure value in this embedding) untouched. -/
theorem C8_no_call_returns_and_sort_is_permutation :
    (∀ (response : Except ClientExc (List RawModel)) (capabilities : ModelCapability)
        (include_deprecated include_problematic_variants : Bool) (sort_order : SortOrder),
      ModelFilter.filter_models response capabilities include_deprecated
          include_problematic_variants sort_order =
        .error (.typeError filterConfigTypeErrorMsg)) ∧
    (∀ (models : List ModelInfo) (sort_order : SortOrder),
      (ModelFilter.apply_sort models sort_order).Perm models) := by
  refine ⟨fun _ _ _ _ _ => rfl, fun models sort_order => ?_⟩
  cases sort_order with
  | NONE => exact List.Perm.refl _
  | PRICE_ASC => exact List.perm_insertionSort priceLe models
  | PRICE_DESC => exact List.perm_insertionSort priceGe models
  | NAME_ASC => exact List.perm_insertionSort nameLe models
  | NAME_DESC => exact List.perm_insertionSort nameGe models
  | CONTEXT_ASC => exact List.perm_insertionSort contextLe models
  | CONTEXT_DESC => exact List.perm_insertionSort contextGe models

/-- C9: an entry whose description is absent or empty is never classified
as deprecated, whatever the configured keyword list, and the deprecation
skip condition of filters.py line 156 is false for it whatever the
include_deprecated flag. -/
theorem C9_falsy_description_never_deprecated (m : ModelInfo) (config : FilterConfig)
    (h : m.description = none ∨ m.description = some "") :
    ModelFilter.is_deprecated m config = false ∧
    ∀ include_deprecated, deprecationSkip include_deprecated m config = false := by
  have hd : ModelFilter.is_deprecated m config = false := by
    unfold ModelFilter.is_deprecated
    rcases h with h | h <;> simp [h]
  exact ⟨hd, fun b => by simp [deprecationSkip, hd]⟩

/-- Concrete instance of C9: an entry with an empty description and one
with no description, against the default keyword configuration. -/
theorem C9_witness :
    ModelFilter.is_deprecated (ModelInfo.mk { id := "m", description := some "" }) {} = false ∧
    deprecationSkip false (ModelInfo.mk { id := "m", description := some "" }) {} = false ∧
    ModelFilter.is_deprecated (ModelInfo.mk { id := "m" }) {} = false :=
  ⟨(C9_falsy_description_never_deprecated (ModelInfo.mk { id := "m", description := some "" })
      {} (Or.inr rfl)).1,
   (C9_falsy_description_never_deprecated (ModelInfo.mk { id := "m", description := some "" })
      {} (Or.inr rfl)).2 false,
   (C9_falsy_description_never_deprecated (ModelInfo.mk { id := "m" }) {} (Or.inl rfl)).1⟩

/-- C7: a file template whose path does not exist fails validate_params
with the not-found ValueError and render with the not-found
FileNotFoundError; a path whose open succeeds but whose read raises fails
render with the distinct read IOError; and a not-found error is never
equal to a read error. -/
theorem C7_file_template_error_taxonomy (fs : String → PathState) (t : FileTemplatePrompt) :
    (fs t.template_path = .absent →
      t.validate_params fs =
        .error (.valueError ("Template file not found: " ++ t.template_path)) ∧
      t.render fs =
        .error (.fileNotFoundError ("Template file not found: " ++ t.template_path))) ∧
    (∀ m, fs t.template_path = .fileUnreadable m →
      t.render fs =
        .error (.ioError ("Could not read template file " ++ t.template_path ++ ": " ++ m))) ∧
    (∀ s1 s2, PyErr.fileNotFoundError s1 ≠ PyErr.ioError s2) := by
  refine ⟨fun h => ?_, fun m h => ?_, fun s1 s2 => by simp⟩
  · constructor
    · unfold FileTemplatePrompt.validate_params
      rw [h]
    · unfold FileTemplatePrompt.render FileTemplatePrompt.render_content
      rw [h]
  · unfold FileTemplatePrompt.render FileTemplatePrompt.render_content
    rw [h]

/-- Concrete instance of C7: the missing path and the unreadable path. -/
theorem C7_witness :
    FileTemplatePrompt.validate_params (fun _ => PathState.absent) (FileTemplatePrompt.mk "t.txt" "") =
      .error (.valueError "Template file not found: t.txt") ∧
    FileTemplatePrompt.render (fun _ => PathState.absent) (FileTemplatePrompt.mk "t.txt" "") =
      .error (.fileNotFoundError "Template file not found: t.txt") ∧
    FileTemplatePrompt.render (fun _ => PathState.fileUnreadable "Permission denied")
        (FileTemplatePrompt.mk "t.txt" "") =
      .error (.ioError "Could not read template file t.txt: Permission denied") :=
  ⟨((C7_file_template_error_taxonomy (fun _ => PathState.absent)
      (FileTemplatePrompt.mk "t.txt" "")).1 rfl).1,
   ((C7_file_template_error_taxonomy (fun _ => PathState.absent)
      (FileTemplatePrompt.mk "t.txt" "")).1 rfl).2,
   (C7_file_template_error_taxonomy (fun _ => PathState.fileUnreadable "Permission denied")
      (FileTemplatePrompt.mk "t.txt" "")).2.1 "Permission denied" rfl⟩

/-- A string contains each of its suffixes, in particular the message
appended at the end of a wrapped error message. -/
theorem strContains_append_self (a b : String) : strContains (a ++ b) b = true := by
  unfold strContains listContainsSub
  rw [List.any_eq_true]
  refine ⟨a.data.length, ?_, ?_⟩
  · rw [List.mem_range, String.data_append, List.length_append]
    omega
  · rw [String.data_append, List.drop_left, List.isPrefixOf_iff_prefix]

/-- C4 counterexample: when the client raises an exception whose own class
is RuntimeError, the wrapped error raised by _fetch_models has exactly the
same class as the raw transport exception, contradicting the claim that
the wrapped type is never the raw type. -/
theorem C4_counterexample_runtimeerror_client :
    ModelFilter.fetch_models (.error { typeName := "RuntimeError", msg := "boom" }) =
      .error (.runtimeError "Failed to fetch models from OpenRouter API: boom") ∧
    PyErr.typeName (.runtimeError "Failed to fetch models from OpenRouter API: boom") =
      ClientExc.typeName { typeName := "RuntimeError", msg := "boom" } :=
  ⟨rfl, rfl⟩

/-- C4 (amended): whenever the client call fails, _fetch_models raises a
RuntimeError whose message embeds the underlying message; its class
differs from the raw transport exception class whenever that class is not
itself RuntimeError; and no list of models is ever returned on failure —
the fetch is all-or-nothing. -/
theorem C4_fetch_wraps_client_errors (e : ClientExc) :
    ModelFilter.fetch_models (.error e) =
      .error (.runtimeError ("Failed to fetch models from OpenRouter API: " ++ e.msg)) ∧
    strContains ("Failed to fetch models from OpenRouter API: " ++ e.msg) e.msg = true ∧
    (e.typeName ≠ "RuntimeError" →
      PyErr.typeName (.runtimeError ("Failed to fetch models from OpenRouter API: " ++ e.msg)) ≠
        e.typeName) ∧
    (∀ ms, ModelFilter.fetch_models (.error e) ≠ .ok ms) := by
  refine ⟨rfl, strContains_append_self _ _, fun h => ?_, fun ms h => ?_⟩
  · simpa [PyErr.typeName] using fun hc => h hc.symm
  · exact Except.noConfusion h

/-- Concrete instance of C4 (amended), at a transport exception of class
HTTPError. -/
theorem C4_witness :
    ModelFilter.fetch_models (.error { typeName := "HTTPError", msg := "boom" }) =
      .error (.runtimeError "Failed to fetch models from OpenRouter API: boom") ∧
    strContains "Failed to fetch models from OpenRouter API: boom" "boom" = true ∧
    PyErr.typeName (.runtimeError "Failed to fetch models from OpenRouter API: boom") ≠
      "HTTPError" ∧
    ModelFilter.fetch_models (.error { typeName := "HTTPError", msg := "boom" }) ≠ .ok [] := by
  have h := C4_fetch_wraps_client_errors { typeName := "HTTPError", msg := "boom" }
  exact ⟨h.1, h.2.1, h.2.2.1 (by decide), h.2.2.2 []⟩

/-- Multiplying a decimal by a million multiplies its rational value by a
million. -/
theorem Dec.mulMillion_toRat (d : Dec) : d.mulMillion.toRat = d.toRat * 1000000 := by
  unfold Dec.mulMillion Dec.toRat
  rw [zpow_add₀ (by norm_num : (10 : Rat) ≠ 0)]
  rw [show ((10 : Rat) ^ (6 : Int)) = 1000000 by norm_num]
  ring

/-- C3: get_pricing_per_1m_tokens never raises (it is a total function in
this embedding, the source catching the only exceptions float can raise):
it is the inf fallback whenever the pricing structure is absent, the
prompt attribute is absent, or the prompt price does not parse (a
non-numeric string or a None); and when the prompt price parses as a
decimal the result is exactly that decimal multiplied by 1,000,000. -/
theorem C3_price_per_million_spec (m : ModelInfo) :
    (m.pricing = none → priceValue m.get_pricing_per_1m_tokens = ⊤) ∧
    (∀ p, m.pricing = some p → p.prompt = none →
      priceValue m.get_pricing_per_1m_tokens = ⊤) ∧
    (∀ p v, m.pricing = some p → p.prompt = some v → pyFloat v = none →
      priceValue m.get_pricing_per_1m_tokens = ⊤) ∧
    (∀ p v d, m.pricing = some p → p.prompt = some v → pyFloat v = some d →
      m.get_pricing_per_1m_tokens = some d.mulMillion ∧
      priceValue m.get_pricing_per_1m_tokens = ((d.toRat * 1000000 : Rat) : WithTop Rat)) := by
  refine ⟨fun h => ?_, fun p hp hpr => ?_, fun p v hp hpr hv => ?_, fun p v d hp hpr hv => ?_⟩
  · simp only [ModelInfo.get_pricing_per_1m_tokens, h]
    rfl
  · simp only [ModelInfo.get_pricing_per_1m_tokens, hp, hpr]
    rfl
  · simp only [ModelInfo.get_pricing_per_1m_tokens, hp, hpr, hv]
    rfl
  · have hg : m.get_pricing_per_1m_tokens = some d.mulMillion := by
      simp only [ModelInfo.get_pricing_per_1m_tokens, hp, hpr, hv]
    refine ⟨hg, ?_⟩
    rw [hg]
    simp only [priceValue, Dec.mulMillion_toRat]

/-- Concrete instances of C3: an entry without pricing, one with an absent
prompt attribute, one with the non-numeric prompt price free!!, one with a
None prompt price, and one with prompt price 0.000002 whose value per
million tokens is exactly 2. -/
theorem C3_witness :
    priceValue (ModelInfo.mk { id := "w" }).get_pricing_per_1m_tokens = ⊤ ∧
    priceValue (ModelInfo.mk { id := "x", pricing := some {} }).get_pricing_per_1m_tokens = ⊤ ∧
    priceValue (ModelInfo.mk
      { id := "y", pricing := some { prompt := some (.str "free!!") } }).get_pricing_per_1m_tokens
      = ⊤ ∧
    priceValue (ModelInfo.mk
      { id := "yn", pricing := some { prompt := some .pynone } }).get_pricing_per_1m_tokens = ⊤ ∧
    (ModelInfo.mk
      { id := "z", pricing := some { prompt := some (.str "0.000002") } }).get_pricing_per_1m_tokens
      = some (Dec.mulMillion { m := 2, e := -6 }) ∧
    priceValue (ModelInfo.mk
      { id := "z", pricing := some { prompt := some (.str "0.000002") } }).get_pricing_per_1m_tokens
      = ((2 : Rat) : WithTop Rat) := by
  have hz := (C3_price_per_million_spec
    (ModelInfo.mk { id := "z", pricing := some { prompt := some (.str "0.000002") } })).2.2.2
    { prompt := some (.str "0.000002") } (.str "0.000002") { m := 2, e := -6 }
    rfl rfl (by decide)
  refine ⟨(C3_price_per_million_spec (ModelInfo.mk { id := "w" })).1 rfl,
    (C3_price_per_million_spec (ModelInfo.mk { id := "x", pricing := some {} })).2.1 {} rfl rfl,
    (C3_price_per_million_spec
      (ModelInfo.mk { id := "y", pricing := some { prompt := some (.str "free!!") } })).2.2.1
      { prompt := some (.str "free!!") } (.str "free!!") rfl rfl (by decide),
    (C3_price_per_million_spec
      (ModelInfo.mk { id := "yn", pricing := some { prompt := some .pynone } })).2.2.1
      { prompt := some .pynone } .pynone rfl rfl rfl,
    hz.1, ?_⟩
  rw [hz.2]
  norm_num [Dec.toRat]

/-- Strict substitution raises KeyError at the leftmost missing placeholder
name, on a token list free of invalid delimiters. -/
theorem substituteToks_firstMissing (s : String) (mapping : List (String × String))
    (toks : List Tok) (hni : ∀ tok ∈ toks, tok.isInvalidTok = false) :
    ∀ n, firstMissingVar mapping toks = some n →
      substituteToks s mapping toks = .error (.keyError n) := by
  induction toks with
  | nil => intro n h; simp [firstMissingVar] at h
  | cons tok ts ih =>
    intro n h
    have hni' : ∀ t ∈ ts, t.isInvalidTok = false :=
      fun t ht => hni t (List.mem_cons_of_mem _ ht)
    cases tok with
    | lit c =>
      simp only [firstMissingVar, Tok.nameOf] at h
      simp only [substituteToks, ih hni' n h]
    | escaped =>
      simp only [firstMissingVar, Tok.nameOf] at h
      simp only [substituteToks, ih hni' n h]
    | var m =>
      simp only [firstMissingVar, Tok.nameOf] at h
      by_cases hl : (mapping.lookup m).isSome
      · rw [if_pos hl] at h
        obtain ⟨v, hv⟩ := Option.isSome_iff_exists.mp hl
        simp only [substituteToks, hv, ih hni' n h]
      · rw [if_neg hl] at h
        obtain rfl : m = n := by injection h
        simp only [substituteToks, Option.not_isSome_iff_eq_none.mp hl]
    | braced m =>
      simp only [firstMissingVar, Tok.nameOf] at h
      by_cases hl : (mapping.lookup m).isSome
      · rw [if_pos hl] at h
        obtain ⟨v, hv⟩ := Option.isSome_iff_exists.mp hl
        simp only [substituteToks, hv, ih hni' n h]
      · rw [if_neg hl] at h
        obtain rfl : m = n := by injection h
        simp only [substituteToks, Option.not_isSome_iff_eq_none.mp hl]
    | invalid p =>
      have hcontra := hni _ (List.mem_cons_self _ _)
      simp [Tok.isInvalidTok] at hcontra

/-- On a token list free of invalid delimiters whose every placeholder name
the mapping supplies, strict and safe substitution agree. -/
theorem substituteToks_eq_safe (s : String) (mapping : List (String × String))
    (toks : List Tok) (hni : ∀ tok ∈ toks, tok.isInvalidTok = false)
    (hall : ∀ tok ∈ toks, ∀ n, tok.nameOf = some n → (mapping.lookup n).isSome) :
    substituteToks s mapping toks = .ok (safeSubstituteToks mapping toks) := by
  induction toks with
  | nil => rfl
  | cons tok ts ih =>
    have hni' : ∀ t ∈ ts, t.isInvalidTok = false :=
      fun t ht => hni t (List.mem_cons_of_mem _ ht)
    have hall' : ∀ t ∈ ts, ∀ n, t.nameOf = some n → (mapping.lookup n).isSome :=
      fun t ht => hall t (List.mem_cons_of_mem _ ht)
    have hrec := ih hni' hall'
    cases tok with
    | lit c => simp only [substituteToks, safeSubstituteToks, hrec]
    | escaped => simp only [substituteToks, safeSubstituteToks, hrec]
    | var m =>
      have hl := hall _ (List.mem_cons_self _ _) m rfl
      obtain ⟨v, hv⟩ := Option.isSome_iff_exists.mp hl
      simp only [substituteToks, safeSubstituteToks, hv, hrec]
    | braced m =>
      have hl := hall _ (List.mem_cons_self _ _) m rfl
      obtain ⟨v, hv⟩ := Option.isSome_iff_exists.mp hl
      simp only [substituteToks, safeSubstituteToks, hv, hrec]
    | invalid p =>
      have hcontra := hni _ (List.mem_cons_self _ _)
      simp [Tok.isInvalidTok] at hcontra

/-- C5: on the scenario template, strict render with only name bound fails
with the ValueError naming age while safe render leaves the placeholder
verbatim; in general, on a template free of invalid delimiters, strict
render fails with the ValueError naming the leftmost variable missing from
the mapping, and safe render is a total function — it never fails, on a
missing variable or otherwise. -/
theorem C5_strict_names_first_missing_safe_never_fails :
    ((StringTemplatePrompt.mk "Hello $name, you are $age" "").render [("name", "Ada")] =
       .error (.valueError "Missing required template variable: age") ∧
     (StringTemplatePrompt.mk "Hello $name, you are $age" "").safe_render [("name", "Ada")] =
       "Hello Ada, you are $age") ∧
    (∀ (t : StringTemplatePrompt) (mapping : List (String × String)) (n : String),
      (∀ tok ∈ scanTemplate t.template_string, tok.isInvalidTok = false) →
      firstMissingVar mapping (scanTemplate t.template_string) = some n →
      t.render mapping = .error (.valueError ("Missing required template variable: " ++ n))) ∧
    (∀ (t : StringTemplatePrompt) (mapping : List (String × String)),
      ∃ out : String, t.safe_render mapping = out) := by
  refine ⟨⟨rfl, rfl⟩, fun t mapping n hni hfm => ?_, fun t mapping => ⟨_, rfl⟩⟩
  have hsub := substituteToks_firstMissing t.template_string mapping
    (scanTemplate t.template_string) hni n hfm
  unfold StringTemplatePrompt.render StringTemplatePrompt.render_content
  rw [hsub]

/-- Concrete instance of C5, applying the general statement to the
scenario template and mapping. -/
theorem C5_witness :
    (StringTemplatePrompt.mk "Hello $name, you are $age" "").render [("name", "Ada")] =
      .error (.valueError "Missing required template variable: age") :=
  C5_strict_names_first_missing_safe_never_fails.2.1
    (StringTemplatePrompt.mk "Hello $name, you are $age" "") [("name", "Ada")] "age"
    (by decide) (by decide)

/-- C10 counterexample: the template 100$ has no variables at all, so the
empty mapping supplies every one of them, yet strict render raises the
invalid-placeholder ValueError while safe render returns the text
unchanged — the two are not identical. -/
theorem C10_counterexample_invalid_placeholder :
    firstMissingVar [] (scanTemplate "100$") = none ∧
    (∀ tok ∈ scanTemplate "100$", tok.nameOf = none) ∧
    (StringTemplatePrompt.mk "100$" "").safe_render [] = "100$" ∧
    (StringTemplatePrompt.mk "100$" "").render [] =
      .error (.valueError "Invalid placeholder in string: line 1, col 4") ∧
    (StringTemplatePrompt.mk "100$" "").render [] ≠
      .ok ((StringTemplatePrompt.mk "100$" "").safe_render []) :=
  ⟨rfl, by decide, rfl, rfl, by decide⟩

/-- C10 (amended): safe_render appends the prompt suffix after a blank line
whenever get_prompt_suffix() is non-empty, exactly as render does; and on a
template free of invalid delimiters whose every placeholder the mapping
supplies, render and safe_render return identical strings. -/
theorem C10_safe_render_agrees_when_supplied (t : StringTemplatePrompt)
    (mapping : List (String × String))
    (hni : ∀ tok ∈ scanTemplate t.template_string, tok.isInvalidTok = false)
    (hall : ∀ tok ∈ scanTemplate t.template_string, ∀ n, tok.nameOf = some n →
      (mapping.lookup n).isSome) :
    t.render mapping = .ok (t.safe_render mapping) ∧
    (t.get_prompt_suffix ≠ "" →
      t.safe_render mapping =
        safeSubstituteToks mapping (scanTemplate t.template_string) ++ "\n\n" ++
          t.get_prompt_suffix ∧
      t.render mapping =
        .ok (safeSubstituteToks mapping (scanTemplate t.template_string) ++ "\n\n" ++
          t.get_prompt_suffix)) := by
  have hsub := substituteToks_eq_safe t.template_string mapping
    (scanTemplate t.template_string) hni hall
  have hr : t.render mapping = .ok (t.safe_render mapping) := by
    unfold StringTemplatePrompt.render StringTemplatePrompt.render_content
      StringTemplatePrompt.safe_render
    rw [hsub]
  refine ⟨hr, fun hs => ?_⟩
  have hsr : t.safe_render mapping =
      safeSubstituteToks mapping (scanTemplate t.template_string) ++ "\n\n" ++
        t.get_prompt_suffix := by
    unfold StringTemplatePrompt.safe_render appendSuffix
    rw [if_neg hs]
  exact ⟨hsr, by rw [hr, hsr]⟩

/-- Concrete instance of C10 (amended): a template with one variable and a
non-empty suffix, rendered both ways with the variable supplied. -/
theorem C10_witness :
    (StringTemplatePrompt.mk "Hi $x" "Be brief.").render [("x", "there")] =
      .ok ((StringTemplatePrompt.mk "Hi $x" "Be brief.").safe_render [("x", "there")]) ∧
    (StringTemplatePrompt.mk "Hi $x" "Be brief.").safe_render [("x", "there")] =
      "Hi there\n\nBe brief." :=
  ⟨(C10_safe_render_agrees_when_supplied (StringTemplatePrompt.mk "Hi $x" "Be brief.")
      [("x", "there")] (by decide) (by decide)).1, rfl⟩

/-- pow10 is the integer power of ten. -/
theorem pow10_eq (k : Nat) : pow10 k = (10 : Int) ^ k := by
  induction k with
  | zero => rfl
  | succ n ih => rw [pow10, ih, pow_succ]; ring

/-- Scaling the left mantissa: comparing m1 against m2 shifted by k decimal
places is comparing the values at exponents e1 and e1 + k. -/
theorem int_le_scale (m1 m2 e1 : Int) (k : Nat) :
    (m1 ≤ m2 * pow10 k) ↔
      ((m1 : Rat) * (10 : Rat) ^ e1 ≤ (m2 : Rat) * (10 : Rat) ^ (e1 + (k : Int))) := by
  have hpos : (0 : Rat) < (10 : Rat) ^ e1 := zpow_pos (by norm_num) e1
  rw [zpow_add₀ (by norm_num : (10 : Rat) ≠ 0), zpow_natCast]
  constructor
  · intro h
    have h2 : (m1 : Rat) ≤ (m2 : Rat) * (10 : Rat) ^ k := by
      rw [pow10_eq] at h
      exact_mod_cast h
    calc (m1 : Rat) * (10 : Rat) ^ e1
        ≤ ((m2 : Rat) * (10 : Rat) ^ k) * (10 : Rat) ^ e1 :=
          mul_le_mul_of_nonneg_right h2 hpos.le
      _ = (m2 : Rat) * ((10 : Rat) ^ e1 * (10 : Rat) ^ k) := by ring
  · intro h
    have h1 : (m1 : Rat) * (10 : Rat) ^ e1 ≤ ((m2 : Rat) * (10 : Rat) ^ k) * (10 : Rat) ^ e1 := by
      calc (m1 : Rat) * (10 : Rat) ^ e1
          ≤ (m2 : Rat) * ((10 : Rat) ^ e1 * (10 : Rat) ^ k) := h
        _ = ((m2 : Rat) * (10 : Rat) ^ k) * (10 : Rat) ^ e1 := by ring
    have h2 : (m1 : Rat) ≤ (m2 : Rat) * (10 : Rat) ^ k := le_of_mul_le_mul_right h1 hpos
    rw [pow10_eq]
    exact_mod_cast h2

/-- Scaling the right mantissa, the mirror of int_le_scale. -/
theorem scale_le_int (m1 m2 e2 : Int) (k : Nat) :
    (m1 * pow10 k ≤ m2) ↔
      ((m1 : Rat) * (10 : Rat) ^ (e2 + (k : Int)) ≤ (m2 : Rat) * (10 : Rat) ^ e2) := by
  have hpos : (0 : Rat) < (10 : Rat) ^ e2 := zpow_pos (by norm_num) e2
  rw [zpow_add₀ (by norm_num : (10 : Rat) ≠ 0), zpow_natCast]
  constructor
  · intro h
    have h2 : (m1 : Rat) * (10 : Rat) ^ k ≤ (m2 : Rat) := by
      rw [pow10_eq] at h
      exact_mod_cast h
    calc (m1 : Rat) * ((10 : Rat) ^ e2 * (10 : Rat) ^ k)
        = ((m1 : Rat) * (10 : Rat) ^ k) * (10 : Rat) ^ e2 := by ring
      _ ≤ (m2 : Rat) * (10 : Rat) ^ e2 := mul_le_mul_of_nonneg_right h2 hpos.le
  · intro h
    have h1 : ((m1 : Rat) * (10 : Rat) ^ k) * (10 : Rat) ^ e2 ≤ (m2 : Rat) * (10 : Rat) ^ e2 := by
      calc ((m1 : Rat) * (10 : Rat) ^ k) * (10 : Rat) ^ e2
          = (m1 : Rat) * ((10 : Rat) ^ e2 * (10 : Rat) ^ k) := by ring
        _ ≤ (m2 : Rat) * (10 : Rat) ^ e2 := h
    have h2 : (m1 : Rat) * (10 : Rat) ^ k ≤ (m2 : Rat) := le_of_mul_le_mul_right h1 hpos
    rw [pow10_eq]
    exact_mod_cast h2

/-- The executable decimal comparison agrees with the rational order. -/
theorem Dec.le_iff (a b : Dec) : Dec.le a b = true ↔ a.toRat ≤ b.toRat := by
  unfold Dec.le Dec.toRat
  by_cases h : a.e ≤ b.e
  · rw [if_pos h, decide_eq_true_eq]
    have hk : b.e = a.e + (((b.e - a.e).toNat : Nat) : Int) := by omega
    rw [show (b.m : Rat) * (10 : Rat) ^ b.e =
        (b.m : Rat) * (10 : Rat) ^ (a.e + (((b.e - a.e).toNat : Nat) : Int)) by rw [← hk]]
    exact int_le_scale a.m b.m a.e (b.e - a.e).toNat
  · rw [if_neg h, decide_eq_true_eq]
    have hk : a.e = b.e + (((a.e - b.e).toNat : Nat) : Int) := by omega
    rw [show (a.m : Rat) * (10 : Rat) ^ a.e =
        (a.m : Rat) * (10 : Rat) ^ (b.e + (((a.e - b.e).toNat : Nat) : Int)) by rw [← hk]]
    exact scale_le_int a.m b.m b.e (a.e - b.e).toNat

/-- The executable price comparison agrees with the extended-real order on
price values (the inf fallback is the top element). -/
theorem priceLeB_iff (x y : Option Dec) :
    priceLeB x y = true ↔ priceValue x ≤ priceValue y := by
  cases x <;> cases y <;>
    simp [priceLeB, priceValue, Dec.le_iff, top_le_iff, WithTop.coe_le_coe]

/-- A price below the inf fallback in the executable order is only inf
itself. -/
theorem priceLeB_none_left {y : Option Dec} (h : priceLeB none y = true) : y = none := by
  cases y with
  | none => rfl
  | some d => simp [priceLeB] at h

instance : IsTotal ModelInfo priceLe :=
  ⟨fun a b => by
    unfold priceLe
    rcases le_total (priceValue a.get_pricing_per_1m_tokens)
      (priceValue b.get_pricing_per_1m_tokens) with h | h
    · exact Or.inl ((priceLeB_iff _ _).mpr h)
    · exact Or.inr ((priceLeB_iff _ _).mpr h)⟩

instance : IsTrans ModelInfo priceLe :=
  ⟨fun _ _ _ hab hbc =>
    (priceLeB_iff _ _).mpr (le_trans ((priceLeB_iff _ _).mp hab) ((priceLeB_iff _ _).mp hbc))⟩

instance : IsTotal ModelInfo priceGe :=
  ⟨fun a b => (IsTotal.total (r := priceLe) b a).imp id id⟩

instance : IsTrans ModelInfo priceGe :=
  ⟨fun _ _ _ hab hbc => IsTrans.trans (r := priceLe) _ _ _ hbc hab⟩

/-- C6: for every list of wrapped models, (1) sorting by price-desc equals
the reverse of sorting by price-asc up to stable tie ordering among equal
prices — the two agree as price-value sequences and as multisets of
entries; (2) entries with the inf fallback price (absent or unparsable
pricing) occupy a suffix of the price-asc result and a prefix of the
price-desc result; (3) both sorts are stable: a pair of equal-priced
entries in catalog order stays in that relative order in both results. -/
theorem C6_price_sort_spec (models : List ModelInfo) :
    ((ModelFilter.apply_sort models .PRICE_DESC).map
        (fun m => priceValue m.get_pricing_per_1m_tokens) =
      ((ModelFilter.apply_sort models .PRICE_ASC).reverse.map
        (fun m => priceValue m.get_pricing_per_1m_tokens)) ∧
     (ModelFilter.apply_sort models .PRICE_DESC).Perm
        (ModelFilter.apply_sort models .PRICE_ASC).reverse) ∧
    ((ModelFilter.apply_sort models .PRICE_ASC).Pairwise
        (fun a b => a.get_pricing_per_1m_tokens = none → b.get_pricing_per_1m_tokens = none) ∧
     (ModelFilter.apply_sort models .PRICE_DESC).Pairwise
        (fun a b => b.get_pricing_per_1m_tokens = none → a.get_pricing_per_1m_tokens = none)) ∧
    (∀ a b : ModelInfo,
      priceValue a.get_pricing_per_1m_tokens = priceValue b.get_pricing_per_1m_tokens →
      [a, b].Sublist models →
      [a, b].Sublist (ModelFilter.apply_sort models .PRICE_ASC) ∧
      [a, b].Sublist (ModelFilter.apply_sort models .PRICE_DESC)) := by
  have sA : (List.insertionSort priceLe models).Pairwise priceLe :=
    List.sorted_insertionSort priceLe models
  have sD : (List.insertionSort priceGe models).Pairwise priceGe :=
    List.sorted_insertionSort priceGe models
  have hDperm : (List.insertionSort priceGe models).Perm
      (List.insertionSort priceLe models).reverse :=
    (List.perm_insertionSort priceGe models).trans
      ((List.perm_insertionSort priceLe models).symm.trans
        (List.reverse_perm (List.insertionSort priceLe models)).symm)
  have hkD : ((List.insertionSort priceGe models).map
      (fun m => priceValue m.get_pricing_per_1m_tokens)).Pairwise
      (fun x y : WithTop Rat => y ≤ x) := by
    rw [List.pairwise_map]
    exact sD.imp (fun h => (priceLeB_iff _ _).mp h)
  have hkArev : (((List.insertionSort priceLe models).reverse).map
      (fun m => priceValue m.get_pricing_per_1m_tokens)).Pairwise
      (fun x y : WithTop Rat => y ≤ x) := by
    rw [List.map_reverse, List.pairwise_reverse, List.pairwise_map]
    exact sA.imp (fun h => (priceLeB_iff _ _).mp h)
  refine ⟨⟨?_, hDperm⟩, ⟨?_, ?_⟩, fun a b hk hsub => ?_⟩
  · exact @List.eq_of_perm_of_sorted (WithTop Rat) (fun x y => y ≤ x)
      ⟨fun a b h1 h2 => le_antisymm h2 h1⟩ _ _
      (hDperm.map (fun m => priceValue m.get_pricing_per_1m_tokens)) hkD hkArev
  · refine sA.imp (fun {a b} h ha => ?_)
    unfold priceLe at h
    rw [ha] at h
    exact priceLeB_none_left h
  · refine sD.imp (fun {a b} h hb => ?_)
    unfold priceGe at h
    rw [hb] at h
    exact priceLeB_none_left h
  · have hle : priceLe a b := (priceLeB_iff _ _).mpr (le_of_eq hk)
    have hge : priceGe a b := (priceLeB_iff _ _).mpr (le_of_eq hk.symm)
    exact ⟨List.pair_sublist_insertionSort hle hsub,
      List.pair_sublist_insertionSort hge hsub⟩

/-- Concrete instance of C6 on a three-entry catalog: two entries tied at
prompt price 2 and one entry without pricing; the tie keeps its catalog
order in both sorts, and the desc price sequence is the reversed asc one. -/
theorem C6_witness :
    [ModelInfo.mk { id := "p2a", pricing := some { prompt := some (.str "2") } },
     ModelInfo.mk { id := "p2b", pricing := some { prompt := some (.str "2") } }].Sublist
      (ModelFilter.apply_sort
        [ModelInfo.mk { id := "p2a", pricing := some { prompt := some (.str "2") } },
         ModelInfo.mk { id := "p2b", pricing := some { prompt := some (.str "2") } },
         ModelInfo.mk { id := "inf" }] .PRICE_ASC) ∧
    [ModelInfo.mk { id := "p2a", pricing := some { prompt := some (.str "2") } },
     ModelInfo.mk { id := "p2b", pricing := some { prompt := some (.str "2") } }].Sublist
      (ModelFilter.apply_sort
        [ModelInfo.mk { id := "p2a", pricing := some { prompt := some (.str "2") } },
         ModelInfo.mk { id := "p2b", pricing := some { prompt := some (.str "2") } },
         ModelInfo.mk { id := "inf" }] .PRICE_DESC) ∧
    (ModelFilter.apply_sort
        [ModelInfo.mk { id := "p2a", pricing := some { prompt := some (.str "2") } },
         ModelInfo.mk { id := "p2b", pricing := some { prompt := some (.str "2") } },
         ModelInfo.mk { id := "inf" }] .PRICE_DESC).map
      (fun m => priceValue m.get_pricing_per_1m_tokens) =
    ((ModelFilter.apply_sort
        [ModelInfo.mk { id := "p2a", pricing := some { prompt := some (.str "2") } },
         ModelInfo.mk { id := "p2b", pricing := some { prompt := some (.str "2") } },
         ModelInfo.mk { id := "inf" }] .PRICE_ASC).reverse.map
      (fun m => priceValue m.get_pricing_per_1m_tokens)) := by
  have h := C6_price_sort_spec
    [ModelInfo.mk { id := "p2a", pricing := some { prompt := some (.str "2") } },
     ModelInfo.mk { id := "p2b", pricing := some { prompt := some (.str "2") } },
     ModelInfo.mk { id := "inf" }]
  have hsub := h.2.2
    (ModelInfo.mk { id := "p2a", pricing := some { prompt := some (.str "2") } })
    (ModelInfo.mk { id := "p2b", pricing := some { prompt := some (.str "2") } })
    rfl
    (List.sublist_append_left
      [ModelInfo.mk { id := "p2a", pricing := some { prompt := some (.str "2") } },
       ModelInfo.mk { id := "p2b", pricing := some { prompt := some (.str "2") } }]
      [ModelInfo.mk { id := "inf" }])
  exact ⟨hsub.1, hsub.2, h.1.1⟩
